import Mathlib

/-
Verification of the orchestration core of the face-tracking / video-recorder
page (the `HomePage` React component).

Shallow embedding conventions:
* The component's React state and refs become one record, `ComponentState`.
  Blobs are byte lists (`List Nat`); a media stream is the list of the ids of
  its tracks (`Option (List Nat)`; `none` means `videoRef.current.srcObject`
  is null); `videoBlobUrl` holds the bytes the object URL refers to.
* Each handler of the component becomes a state-transition function.  Outcomes
  of external calls that may fail (encoder construction, localStorage write,
  model fetch) are passed in as explicit `Bool` arguments.
* `liveTimers` counts the detection intervals currently registered with the
  runtime (`setInterval` minus `clearInterval`); `fetchCount` counts the
  `loadFromUri` asset fetches issued so far.  Both are observation fields for
  the timing/resource claims; no handler of the source reads them.
-/

structure ComponentState where
  cameraOn : Bool
  /-- `videoRef.current.srcObject`: the ids of the tracks of the attached
  stream, or `none`. -/
  stream : Option (List Nat)
  /-- ids of every track on which `track.stop()` has been called. -/
  stoppedTracks : List Nat
  isRecording : Bool
  /-- `mediaRecorderRef.current`: whether a recorder object is bound. -/
  recorder : Option Unit
  /-- `recordedChunks.current`: the ordered chunk buffers. -/
  recordedChunks : List (List Nat)
  /-- `videoBlobUrl`: bytes of the blob the current object URL points to. -/
  videoBlobUrl : Option (List Nat)
  loadingModels : Bool
  error : Option String
  /-- value stored under the fixed localStorage key `recordedVideo`. -/
  storage : Option (List Nat)
  /-- number of detection intervals currently live (registered, not cleared). -/
  liveTimers : Nat
  /-- number of `loadFromUri` model-asset fetches issued so far. -/
  fetchCount : Nat
deriving DecidableEq

/-- Initial state from the `useState`/`useRef` initializers: camera on,
no stream, not recording, no recorder, no chunks, no blob URL, models still
loading, no error; nothing persisted, no timers, no fetches yet. -/
def initialState : ComponentState where
  cameraOn := true
  stream := none
  stoppedTracks := []
  isRecording := false
  recorder := none
  recordedChunks := []
  videoBlobUrl := none
  loadingModels := true
  error := none
  storage := none
  liveTimers := 0
  fetchCount := 0

/-- Handler `loadModels` (source lines 19-39).  Every invocation issues the
four `loadFromUri` fetches (tinyFaceDetector, faceLandmark68TinyNet,
faceRecognitionNet, ssdMobilenetv1); there is no already-loaded guard and no
in-flight guard.  On success it ends with `loadingModels = false` and clears
the error; on failure it sets the error and ends with `loadingModels = false`. -/
def loadModels (st : ComponentState) (success : Bool) : ComponentState :=
  if success then
    { st with
      fetchCount := st.fetchCount + 4
      loadingModels := false
      error := none }
  else
    { st with
      fetchCount := st.fetchCount + 4
      loadingModels := false
      error := some "Failed to load face tracking models. Please check your network and model paths. Ensure models are in public/models." }

/-- Dependency array of the main effect (source line 114):
`[loadModels, loadingModels, error, isRecording, cameraOn]`.  The `loadModels`
callback itself is `useCallback` with an empty dependency list, hence a stable
reference; the remaining dependencies are the four state values below.  React
re-runs the effect whenever this tuple changes. -/
def effectDeps (st : ComponentState) : Bool × Option String × Bool × Bool :=
  (st.loadingModels, st.error, st.isRecording, st.cameraOn)

/-- Local function `startFaceDetection` (source lines 63-89).  It declares a
local `detectionInterval` initialized to null, guards
`if (detectionInterval) clearInterval(detectionInterval)` on that
just-initialized local (the guard is therefore never taken), and then
registers a new 100 ms interval.  The interval id is stored only in this
local variable and never escapes the function. -/
def startFaceDetection (st : ComponentState) : ComponentState :=
  let detectionInterval : Option Nat := none
  let st1 := if detectionInterval.isSome
    then { st with liveTimers := st.liveTimers - 1 }
    else st
  { st1 with liveTimers := st1.liveTimers + 1 }

/-- Local function `startVideo`, success path (source lines 43-56): attaches
the granted stream to the video element; on loadedmetadata it starts face
detection only if, at that moment, the models are loaded and no error is set. -/
def startVideo (st : ComponentState) (tracks : List Nat) : ComponentState :=
  let st1 := { st with stream := some tracks }
  if !st1.loadingModels && st1.error.isNone then startFaceDetection st1 else st1

/-- Camera-off branch of the main effect (source lines 94-98): if a stream is
attached, stop every track and clear the stream reference; otherwise nothing
happens.  No other field is touched; in particular no interval is cleared and
no error is set. -/
def disableCamera (st : ComponentState) : ComponentState :=
  match st.stream with
  | some tracks =>
      { st with stoppedTracks := st.stoppedTracks ++ tracks, stream := none }
  | none => st

/-- Cleanup function of the main effect (source lines 100-113): stops every
track of the attached stream and clears the stream reference, then signals
`mediaRecorderRef.current.stop()` when a recorder is bound and a recording is
active (the returned `Bool`), and clears the onloadedmetadata handler.  It
never references any interval id (the id is local to `startFaceDetection`),
so no timer is cleared. -/
def effectCleanup (st : ComponentState) : ComponentState × Bool :=
  let st1 := match st.stream with
    | some tracks =>
        { st with stoppedTracks := st.stoppedTracks ++ tracks, stream := none }
    | none => st
  (st1, st1.recorder.isSome && st1.isRecording)

/-- Handler `handleDataAvailable` (source lines 117-121): a chunk whose size
is positive is pushed onto `recordedChunks.current`; an empty chunk is
ignored. -/
def handleDataAvailable (st : ComponentState) (data : List Nat) : ComponentState :=
  if 0 < data.length then
    { st with recordedChunks := st.recordedChunks ++ [data] }
  else st

/-- Handler `handleStop` (source lines 124-145): builds one blob from the
accumulated chunks in order, exposes its object URL, leaves recording state,
clears the chunk list, and then persists the blob under the fixed localStorage
key.  `storageOk` is the outcome of `localStorage.setItem`: on failure only
the error slot is set; the blob URL set just before is untouched.  (The source
stores the data-URL encoding of the blob; we record the bytes themselves.) -/
def handleStop (st : ComponentState) (storageOk : Bool) : ComponentState :=
  let superBuffer := st.recordedChunks.flatten
  let st1 := { st with
               videoBlobUrl := some superBuffer
               isRecording := false
               recordedChunks := [] }
  if storageOk then { st1 with storage := some superBuffer }
  else
    { st1 with error := some "Failed to save video to local storage. It might be too large." }

/-- Handler `startRecording` (source lines 148-171): with no attached stream
it only sets the error and returns.  Otherwise it clears the chunk list and
the previous blob URL, then constructs a `MediaRecorder` on the stream
(`encoderOk` is the outcome): on success the recorder is bound and recording
starts; on a constructor throw only the error is set. -/
def startRecording (st : ComponentState) (encoderOk : Bool) : ComponentState :=
  if st.stream.isNone then
    { st with error := some "No video stream available to record." }
  else
    let st1 := { st with recordedChunks := [], videoBlobUrl := none }
    if encoderOk then { st1 with recorder := some (), isRecording := true }
    else
      { st1 with error := some "Failed to start recording. Your browser might not support MediaRecorder API or the selected mimeType." }

/-- Handler `stopRecording` (source lines 174-179): when a recorder is bound
and `isRecording` holds, it calls `mediaRecorderRef.current.stop()` (the
returned `Bool`); otherwise the body is skipped.  The component state itself
is not modified by this handler (state changes happen later in `handleStop`). -/
def stopRecording (st : ComponentState) : ComponentState × Bool :=
  if st.recorder.isSome && st.isRecording then (st, true) else (st, false)

/-- Handler `downloadVideo` (source lines 182-194): with a blob URL present it
materializes a client-local download of that blob named
`face-tracking-video-<Date.now()>.webm` (the returned filename, `now` being
the timestamp); with no blob URL it only sets the error. -/
def downloadVideo (st : ComponentState) (now : Nat) : ComponentState × Option String :=
  match st.videoBlobUrl with
  | some _ => (st, some ("face-tracking-video-" ++ toString now ++ ".webm"))
  | none => ({ st with error := some "No video recorded to download." }, none)

/-- Enabled-predicate of the Download Video button (source line 262):
`disabled` is `!videoBlobUrl || isRecording`, so the handler can be invoked
exactly when a blob URL exists and no recording is active. -/
def downloadEnabled (st : ComponentState) : Bool :=
  st.videoBlobUrl.isSome && !st.isRecording

/-- Applying a sequence of encoder `dataavailable` events in arrival order. -/
def applyChunks (st : ComponentState) (ds : List (List Nat)) : ComponentState :=
  ds.foldl handleDataAvailable st

/-- Timing model of the detection interval (source line 75 and 88):
`setInterval(async cb, 100)` fires tick n = 0, 1, 2, ... at time
100 * (n + 1) ms. -/
def detectionTickTime (n : Nat) : Nat := 100 * (n + 1)

/-- A detection submission started at tick n is in flight at time t when the
tick has fired and its detect-and-render work, taking `latency` ms, has not
yet completed. -/
def submissionInFlight (latency t n : Nat) : Bool :=
  decide (detectionTickTime n ≤ t) && decide (t < detectionTickTime n + latency)

/-- Number of detection submissions in flight at time t over the first k
ticks.  Per the source (lines 75-88), the interval callback starts a new
`detectAllFaces` submission at every tick on which the video is neither
paused nor ended; `setInterval` does not await the async callback and the
callback has no busy/in-flight guard, so a tick is never skipped on account
of a still-running previous submission. -/
def detectionsInFlight (paused ended : Bool) (latency t k : Nat) : Nat :=
  if !paused && !ended then
    ((List.range k).filter (submissionInFlight latency t)).length
  else 0

/-! Helper lemmas about chunk accumulation. -/

lemma handleDataAvailable_videoBlobUrl (st : ComponentState) (d : List Nat) :
    (handleDataAvailable st d).videoBlobUrl = st.videoBlobUrl := by
  unfold handleDataAvailable
  split <;> rfl

lemma applyChunks_videoBlobUrl (ds : List (List Nat)) (st : ComponentState) :
    (applyChunks st ds).videoBlobUrl = st.videoBlobUrl := by
  induction ds generalizing st with
  | nil => rfl
  | cons d ds ih =>
      show (applyChunks (handleDataAvailable st d) ds).videoBlobUrl = _
      rw [ih, handleDataAvailable_videoBlobUrl]

lemma applyChunks_recordedChunks (ds : List (List Nat)) (st : ComponentState) :
    (applyChunks st ds).recordedChunks =
      st.recordedChunks ++ ds.filter (fun c => decide (0 < c.length)) := by
  induction ds generalizing st with
  | nil => simp [applyChunks]
  | cons d ds ih =>
      show (applyChunks (handleDataAvailable st d) ds).recordedChunks = _
      rw [ih]
      unfold handleDataAvailable
      by_cases h : 0 < d.length
      · simp [h, List.filter_cons]
      · simp [h, List.filter_cons]

lemma handleStop_videoBlobUrl (st : ComponentState) (ok : Bool) :
    (handleStop st ok).videoBlobUrl = some st.recordedChunks.flatten := by
  unfold handleStop
  cases ok <;> rfl

lemma stopRecording_fst (st : ComponentState) : (stopRecording st).1 = st := by
  unfold stopRecording
  split <;> rfl

/-- Claim C1 (evaluation at the failing input): with the video playing, the
100 ms tick period of the source and a detection latency of 150 ms, two
detection submissions are simultaneously in flight at t = 220 ms (those of
the ticks at 100 ms and 200 ms): the interval callback has no in-flight
guard, so the tick at 200 ms is not skipped even though the work started at
100 ms has not completed, contradicting the at-most-one-in-flight rule. -/
theorem C1_overlapping_detections :
    detectionsInFlight false false 150 220 3 = 2 ∧
    1 < detectionsInFlight false false 150 220 3 := by decide

/-- Claim C2 (evaluation at the failing input): starting the video with
models loaded and no error registers a detection interval; the effect cleanup
(component teardown) releases the capture source — stream reference cleared,
its track stopped — yet the interval stays live (`liveTimers = 1`), and the
camera-off branch likewise leaves it live: no `clearInterval` call is
reachable in the source. -/
theorem C2_timer_outlives_source :
    (effectCleanup (startVideo { initialState with loadingModels := false } [0])).1.stream
      = none ∧
    0 ∈ (effectCleanup (startVideo { initialState with loadingModels := false } [0])).1.stoppedTracks ∧
    (effectCleanup (startVideo { initialState with loadingModels := false } [0])).1.liveTimers
      = 1 ∧
    (disableCamera (startVideo { initialState with loadingModels := false } [0])).liveTimers
      = 1 := by decide

/-- Claim C3: starting from an empty chunk list, applying the encoder's
emissions in arrival order appends exactly the non-empty chunks in that
order, and finalizing yields an artifact equal to their concatenation in
arrival order, whether or not persistence succeeds. -/
theorem C3_chunk_order_and_concat (st : ComponentState) (ds : List (List Nat))
    (ok : Bool) (h : st.recordedChunks = []) :
    (applyChunks st ds).recordedChunks = ds.filter (fun c => decide (0 < c.length)) ∧
    (handleStop (applyChunks st ds) ok).videoBlobUrl =
      some (ds.filter (fun c => decide (0 < c.length))).flatten := by
  have h1 := applyChunks_recordedChunks ds st
  rw [h, List.nil_append] at h1
  exact ⟨h1, by rw [handleStop_videoBlobUrl, h1]⟩

/-- Witness for C3: the scenario chunks "a", "b", "c" (bytes 97, 98, 99) with
an interleaved empty chunk: the empty chunk is discarded and the artifact is
the concatenation 97 ++ 98 ++ 99. -/
theorem C3_chunk_order_and_concat_witness :
    initialState.recordedChunks = [] ∧
    (applyChunks initialState [[97], [], [98], [99]]).recordedChunks
      = [[97], [98], [99]] ∧
    (handleStop (applyChunks initialState [[97], [], [98], [99]]) true).videoBlobUrl
      = some [97, 98, 99] := by
  have h := C3_chunk_order_and_concat initialState [[97], [], [98], [99]] true rfl
  exact ⟨rfl, h.1.trans (by decide), h.2.trans (by decide)⟩

/-- Claim C4 (evaluation at the failing input): `loadModels` issues its four
asset fetches on every invocation, a failed load sets the error (so `ready`
would stay false), and the completed load changes dependencies of the main
effect (`loadingModels`, `error`), so the effect re-runs and invokes
`loadModels` again: after the automatic retry that follows the failed first
load, eight fetches have been issued instead of four. -/
theorem C4_duplicate_fetch_and_retry :
    (loadModels initialState false).error ≠ none ∧
    effectDeps (loadModels initialState false) ≠ effectDeps initialState ∧
    (loadModels (loadModels initialState false) true).fetchCount = 8 := by
  refine ⟨?_, ?_, rfl⟩
  · simp [loadModels, initialState]
  · simp [effectDeps, loadModels, initialState]

/-- Claim C5: when no stream is attached, `startRecording` only sets the
error: the recording flag, chunk list, blob URL, recorder binding and
storage are all left untouched. -/
theorem C5_startRecording_noSource (st : ComponentState) (ok : Bool)
    (h : st.stream = none) :
    startRecording st ok =
      { st with error := some "No video stream available to record." } := by
  unfold startRecording
  rw [h]
  rfl

/-- Witness for C5 at the initial state (no stream attached). -/
theorem C5_startRecording_noSource_witness :
    startRecording initialState true =
      { initialState with error := some "No video stream available to record." } :=
  C5_startRecording_noSource initialState true rfl

/-- Claim C6: a persistence failure in `handleStop` is non-fatal: the blob
URL is still set to the assembled artifact, the error slot describes the
storage failure, and `downloadVideo` afterwards still materializes the
download. -/
theorem C6_storage_failure_nonfatal (st : ComponentState) (t : Nat) :
    (handleStop st false).videoBlobUrl = some st.recordedChunks.flatten ∧
    (handleStop st false).error
      = some "Failed to save video to local storage. It might be too large." ∧
    (downloadVideo (handleStop st false) t).2
      = some ("face-tracking-video-" ++ toString t ++ ".webm") := by
  refine ⟨handleStop_videoBlobUrl st false, rfl, ?_⟩
  simp [downloadVideo, handleStop_videoBlobUrl]

/-- Claim C7: the Download Video button enables the handler exactly when an
artifact reference exists and no recording is active; the handler invoked
without a blob URL sets the no-artifact error and materializes nothing, and
with one it materializes a download named from the timestamp. -/
theorem C7_download_gating (st : ComponentState) (t : Nat) :
    (downloadEnabled st = true ↔ st.videoBlobUrl.isSome = true ∧ st.isRecording = false) ∧
    downloadVideo st t =
      (if st.videoBlobUrl.isSome then st
       else { st with error := some "No video recorded to download." },
       if st.videoBlobUrl.isSome then
         some ("face-tracking-video-" ++ toString t ++ ".webm")
       else none) := by
  constructor
  · simp [downloadEnabled]
  · cases h : st.videoBlobUrl <;> simp [downloadVideo, h]

/-- Claim C8: the camera-off release is idempotent: a second call is the
identity, the stream reference is cleared, every attached track is stopped,
and neither call sets an error. -/
theorem C8_disableCamera_idempotent (st : ComponentState) :
    disableCamera (disableCamera st) = disableCamera st ∧
    (disableCamera st).stream = none ∧
    (disableCamera st).error = st.error ∧
    (disableCamera st).stoppedTracks = st.stoppedTracks ++ st.stream.getD [] := by
  cases h : st.stream <;> simp [disableCamera, h]

/-- Claim C9: a successful `startRecording` clears the previous artifact
reference and the chunk list; across any sequence of chunk arrivals, and
through the `stopRecording` signal, the blob URL stays absent, so
`downloadVideo` fails until `handleStop` finalizes. -/
theorem C9_start_clears_artifact (st : ComponentState) (ds : List (List Nat))
    (t : Nat) (h : st.stream.isSome = true) :
    (startRecording st true).videoBlobUrl = none ∧
    (startRecording st true).recordedChunks = [] ∧
    (startRecording st true).isRecording = true ∧
    (applyChunks (startRecording st true) ds).videoBlobUrl = none ∧
    (downloadVideo (applyChunks (startRecording st true) ds) t).2 = none ∧
    ((stopRecording (applyChunks (startRecording st true) ds)).1).videoBlobUrl = none := by
  obtain ⟨tracks, htr⟩ := Option.isSome_iff_exists.mp h
  have h1 : (startRecording st true).videoBlobUrl = none := by
    simp [startRecording, htr]
  have h4 : (applyChunks (startRecording st true) ds).videoBlobUrl = none := by
    rw [applyChunks_videoBlobUrl, h1]
  refine ⟨h1, by simp [startRecording, htr], by simp [startRecording, htr], h4, ?_, ?_⟩
  · simp [downloadVideo, h4]
  · rw [stopRecording_fst]; exact h4

/-- Witness for C9: a state with an attached one-track stream, one chunk
arriving, timestamp 0. -/
theorem C9_start_clears_artifact_witness :
    (startRecording { initialState with stream := some [0] } true).videoBlobUrl = none ∧
    (startRecording { initialState with stream := some [0] } true).recordedChunks = [] ∧
    (startRecording { initialState with stream := some [0] } true).isRecording = true ∧
    (applyChunks (startRecording { initialState with stream := some [0] } true) [[97]]).videoBlobUrl = none ∧
    (downloadVideo (applyChunks (startRecording { initialState with stream := some [0] } true) [[97]]) 0).2 = none ∧
    ((stopRecording (applyChunks (startRecording { initialState with stream := some [0] } true) [[97]])).1).videoBlobUrl = none :=
  C9_start_clears_artifact { initialState with stream := some [0] } [[97]] 0 rfl

/-- Claim C10: `stopRecording` outside the recording state changes no state
field and signals no encoder stop. -/
theorem C10_stop_not_recording_noop (st : ComponentState) (h : st.isRecording = false) :
    stopRecording st = (st, false) := by
  simp [stopRecording, h]

/-- Witness for C10 at the initial state (not recording). -/
theorem C10_stop_not_recording_noop_witness :
    stopRecording initialState = (initialState, false) :=
  C10_stop_not_recording_noop initialState rfl
